import Mathlib

/-!
Shallow embedding of the HibernationBug realtime relay.

The embedded code is the hibernation-compatible `YjsPartyServer`
(src/unnamed/part_002, first class, lines 181-623) and the client
provider `YjsPartyProvider` (src/client/src/YjsPartyProvider.ts).

Modelling conventions, each tied to where the source delegates to an
external collaborator:
* The CRDT document (`Y.Doc` with gc disabled) is opaque to the relay;
  it is modelled as the list of update identifiers it has absorbed, with
  `applyUpdate` idempotent and `encodeStateAsUpdate` returning the whole
  list (serializeFull).  The y-protocols sync submessages (step 1 =
  state vector, step 2 = diff, update = incremental update) are a sum
  type, and `readSyncMessage` semantics are embedded per case exactly as
  y-protocols documents them: step 1 writes a step-2 diff reply, step 2
  and update apply to the document and write no reply.
* `JSON.parse` is a platform function; a frame carries the parse result
  directly, `Option.none` standing for malformed JSON (the catch path).
* JSON payload values are opaque to the relay (it never inspects them),
  so a small representative carrier type `JVal` suffices.
* The host capability `this.getConnections()` is passed to each handler
  as the parameter `live : List ConnId`: the ordered enumeration of
  live connections at that moment, appended on accept and with the
  closed id removed once the host has settled a close.  At `onConnect`
  time the new connection has already been accepted, so it is the last
  element of the enumeration (the source relies on this through
  `connectionIndex = existingConnections.length - 1`).
* Durable storage is a record holding the persisted blob plus a flag
  saying whether puts succeed; a failed put makes the surrounding async
  handler reject, which the embedding records in `MsgResult.errored`.
* Wall-clock ISO timestamp strings (`new Date().toISOString()`) are
  threaded as an opaque `String` parameter where a message carries one,
  and elided from the diagnostic-only fields of the roster broadcast.
-/

namespace HibernationBug

abbrev ConnId := String

/-- Opaque identifier of one CRDT incremental update. -/
abbrev Upd := Nat

/-- Representative carrier for JSON payload values the relay stores and
forwards without inspecting them. -/
inductive JVal where
  | null
  | jstr (s : String)
  | jnum (n : Int)
deriving DecidableEq, Repr

/-- The CRDT document: the set (kept as an ordered list) of updates it
has absorbed.  `Y.Doc` internals are out of scope; only the documented
operations below are used by the relay. -/
structure YDoc where
  updates : List Upd
deriving DecidableEq, Repr

/-- Embeds `Y.encodeStateAsUpdate(doc)` - the full serialized state. -/
def encodeStateAsUpdate (d : YDoc) : List Upd := d.updates

/-- Embeds `Y.encodeStateVector(doc)` - what the replica has seen. -/
def stateVector (d : YDoc) : List Upd := d.updates

/-- Diff of `d` against a state vector: the updates the peer lacks. -/
def diffSince (d : YDoc) (sv : List Upd) : List Upd :=
  d.updates.filter (fun u => !sv.contains u)

/-- Embeds `Y.applyUpdate` - idempotent absorption of one update. -/
def applyYUpdate (d : YDoc) (u : Upd) : YDoc :=
  if d.updates.contains u then d else { updates := d.updates ++ [u] }

/-- Applying a step-2 diff = absorbing each contained update. -/
def applyDiff (d : YDoc) (diff : List Upd) : YDoc :=
  diff.foldl applyYUpdate d

/-- y-protocols sync submessages carried inside a MESSAGE_SYNC frame. -/
inductive SyncMsg where
  | step1 (sv : List Upd)
  | step2 (diff : List Upd)
  | update (u : Upd)
deriving DecidableEq, Repr

/-- The `CustomMessage` envelope of MESSAGE_CUSTOM frames:
`interface CustomMessage \x7b type; data?; timestamp? \x7d`. -/
structure CustomMessage where
  type : String
  data : Option JVal
  timestamp : Option String
deriving DecidableEq, Repr

/-- Inbound binary frame after reading the leading varint tag.
For the two JSON-payload kinds the frame carries the `JSON.parse`
result, `none` standing for malformed JSON. -/
inductive BinFrame where
  | sync (m : SyncMsg)
  | awareness (parsed : Option JVal)
  | custom (parsed : Option CustomMessage)
  | unknownTag (tag : Nat)
deriving DecidableEq, Repr

/-- Embeds `rawMessage : string | ArrayBuffer | ArrayBufferView`. -/
inductive RawMessage where
  | text (s : String)
  | binary (f : BinFrame)
deriving DecidableEq, Repr

/-- Identity metadata assigned to one connection. -/
structure UserData where
  name : String
  color : String
  profile_picture_url : String
deriving DecidableEq, Repr

/-- One entry of the roster broadcast: the user metadata spread together
with the connection id. -/
structure RosterUser where
  id : ConnId
  name : String
  color : String
  profile_picture_url : String
deriving DecidableEq, Repr

/-- The `data` object of the `connection-count` custom message
(ISO timestamp field elided, diagnostic only). -/
structure ConnCountData where
  connectionCount : Nat
  mode : String
  event : String
  connections : Nat
  users : List RosterUser
  docSize : Nat
  awarenessStates : Nat
deriving DecidableEq, Repr

/-- Outbound wire messages.  `connectionCount` is on the wire a
MESSAGE_CUSTOM frame with type connection-count; it is kept structured
here because its data payload is what the roster claims constrain.
`rawFrame` is a verbatim re-send of the inbound bytes. -/
inductive OutMsg where
  | sync (m : SyncMsg)
  | awarenessMsg (clientId : ConnId) (state : JVal)
  | customMsg (m : CustomMessage)
  | connectionCount (d : ConnCountData)
  | rawFrame (f : BinFrame)
deriving DecidableEq, Repr

/-- Host send capabilities used by the relay.  `closeConn` is included
so that not tearing a connection down is expressible; no handler of the
embedded server ever emits it. -/
inductive Effect where
  | sendTo (id : ConnId) (m : OutMsg)
  | broadcast (m : OutMsg) (excludeIds : List ConnId)
  | closeConn (id : ConnId)
deriving DecidableEq, Repr

/-- In-memory actor state (the fields the claims touch). -/
structure ServerState where
  doc : Option YDoc
  customAwareness : List (ConnId × JVal)
  connectedUsers : List (ConnId × UserData)
  lastMessageAt : Nat
  lastActivityAt : Nat
deriving DecidableEq, Repr

/-- JS `Map.get`. -/
def aget {α : Type} (m : List (ConnId × α)) (k : ConnId) : Option α :=
  match m with
  | [] => none
  | (k', v) :: rest => if k' = k then some v else aget rest k

/-- JS `Map.set`: replace in place keeping insertion position, else
append (insertion order preserved, as JS Map guarantees). -/
def aset {α : Type} (m : List (ConnId × α)) (k : ConnId) (v : α) :
    List (ConnId × α) :=
  match m with
  | [] => [(k, v)]
  | (k', v') :: rest =>
      if k' = k then (k', v) :: rest else (k', v') :: aset rest k v

/-- JS `Map.delete`. -/
def aerase {α : Type} (m : List (ConnId × α)) (k : ConnId) :
    List (ConnId × α) :=
  match m with
  | [] => []
  | (k', v') :: rest => if k' = k then rest else (k', v') :: aerase rest k

/-- The key sequence of the map. -/
def akeys {α : Type} (m : List (ConnId × α)) : List ConnId :=
  m.map Prod.fst

/-- The fixed color palette of `onConnect`. -/
def paletteColors : List String :=
  ["#FF6B6B", "#4ECDC4", "#45B7D1", "#FFA07A",
   "#98D8C8", "#F7DC6F", "#BB8FCE", "#85C1E2"]

/-- The fixed name palette of `onConnect`. -/
def paletteNames : List String :=
  ["Alice", "Bob", "Charlie", "Diana", "Eve", "Frank", "Grace", "Henry"]

/-- Identity generated for the connection at position `idx` of the live
enumeration: palette entries indexed modulo palette size, avatar URL
derived from the connection id. -/
def mkUserData (idx : Nat) (id : ConnId) : UserData :=
  { name := paletteNames.getD (idx % paletteNames.length) ""
  , color := paletteColors.getD (idx % paletteColors.length) ""
  , profile_picture_url := "https://i.pravatar.cc/150?u=" ++ id }

/-- The backfill loop body over an index-annotated connection list:
`existingConnections.forEach((conn, index) => if missing then set)`. -/
def backfillAux (pairs : List (Nat × ConnId))
    (users : List (ConnId × UserData)) : List (ConnId × UserData) :=
  match pairs with
  | [] => users
  | (idx, c) :: rest =>
      backfillAux rest
        (if (aget users c).isSome then users
         else aset users c (mkUserData idx c))

/-- Rebuild of the user map after a hibernation wake-up: assign an
identity to every enumerated connection missing one. -/
def backfillUsers (existing : List ConnId)
    (users : List (ConnId × UserData)) : List (ConnId × UserData) :=
  backfillAux existing.enum users

/-- The `data` payload of the roster broadcast, computed from the live
enumeration and the current actor state. -/
def connCountData (live : List ConnId) (s : ServerState) (event : String) :
    ConnCountData :=
  { connectionCount := live.length
  , mode := if live.length ≤ 1 then "solo" else "multi"
  , event := event
  , connections := live.length
  , users := s.connectedUsers.map (fun p =>
      { id := p.1, name := p.2.name, color := p.2.color
      , profile_picture_url := p.2.profile_picture_url })
  , docSize := (s.doc.map (fun d => (encodeStateAsUpdate d).length)).getD 0
  , awarenessStates := s.customAwareness.length }

/-- Embeds `broadcastConnectionCount`: recompute the roster snapshot from the
live enumeration and broadcast it to every connection (no exclusions). -/
def broadcastConnectionCount (live : List ConnId) (s : ServerState)
    (event : String) : Effect :=
  Effect.broadcast (OutMsg.connectionCount (connCountData live s event)) []

/-- Embeds `onConnect(connection, ctx)`.  Here `live` is the host enumeration at
dispatch time, already containing `connId` as its last element. -/
def onConnect (now : Nat) (live : List ConnId) (s : ServerState)
    (connId : ConnId) : ServerState × List Effect :=
  let s := { s with lastActivityAt := now }
  match s.doc with
  | none => (s, [])
  | some doc =>
      let existing := live
      let users1 :=
        if s.connectedUsers.length < existing.length then
          backfillUsers existing s.connectedUsers
        else s.connectedUsers
      let connectionIndex := existing.length - 1
      let users2 := aset users1 connId (mkUserData connectionIndex connId)
      let s' := { s with connectedUsers := users2 }
      (s',
        Effect.sendTo connId (OutMsg.sync (SyncMsg.step1 (stateVector doc)))
          :: s.customAwareness.map (fun p =>
               Effect.sendTo connId (OutMsg.awarenessMsg p.1 p.2))
          ++ [broadcastConnectionCount live s' "connect"])

/-- Durable Object storage for the document snapshot; `ok` says whether
puts currently succeed. -/
structure Storage where
  blob : Option (List Upd)
  ok : Bool
deriving DecidableEq, Repr

/-- Embeds `persistDocument`: put the full serialized state under the
persistence key.  Returns the storage and whether the awaited put threw
(true on storage failure; the source wraps it in no try/catch). -/
def persistDocument (s : ServerState) (stor : Storage) : Storage × Bool :=
  match s.doc with
  | none => (stor, false)
  | some d =>
      if stor.ok then ({ stor with blob := some (encodeStateAsUpdate d) }, false)
      else (stor, true)

/-- Outcome of one `onMessage` dispatch: new state, sends performed,
storage after the handler, and whether the async handler rejected. -/
structure MsgResult where
  state : ServerState
  effects : List Effect
  storage : Storage
  errored : Bool
deriving DecidableEq, Repr

/-- Embeds `handleCustomMessage(connection, msg)`: dispatch on the `type`
field.  `nowIso` is the wall-clock ISO string stamped into the pong. -/
def handleCustomMessage (nowIso : String) (sender : ConnId)
    (msg : CustomMessage) : List Effect :=
  if msg.type = "ping" then
    [Effect.sendTo sender
      (OutMsg.customMsg { type := "pong", data := none, timestamp := some nowIso })]
  else if msg.type = "config" then
    [Effect.broadcast (OutMsg.customMsg msg) [sender]]
  else if msg.type = "mode" then
    [Effect.broadcast (OutMsg.customMsg msg) [sender]]
  else
    []

/-- Embeds `onMessage(connection, rawMessage)`. -/
def onMessage (now : Nat) (nowIso : String) (s : ServerState)
    (stor : Storage) (sender : ConnId) (raw : RawMessage) : MsgResult :=
  let s := { s with lastMessageAt := now, lastActivityAt := now }
  match s.doc with
  | none => ⟨s, [], stor, false⟩
  | some doc =>
      match raw with
      | RawMessage.text _ => ⟨s, [], stor, false⟩
      | RawMessage.binary f =>
          match f with
          | BinFrame.sync sm =>
              match sm with
              | SyncMsg.step1 sv =>
                  ⟨s, [Effect.sendTo sender
                        (OutMsg.sync (SyncMsg.step2 (diffSince doc sv)))],
                    stor, false⟩
              | SyncMsg.step2 diff =>
                  ⟨{ s with doc := some (applyDiff doc diff) }, [], stor, false⟩
              | SyncMsg.update u =>
                  let s' := { s with doc := some (applyYUpdate doc u) }
                  let (stor', err) := persistDocument s' stor
                  ⟨s', [Effect.broadcast (OutMsg.rawFrame f) [sender]],
                    stor', err⟩
          | BinFrame.awareness parsed =>
              match parsed with
              | none => ⟨s, [], stor, false⟩
              | some st =>
                  ⟨{ s with customAwareness := aset s.customAwareness sender st },
                    [Effect.broadcast (OutMsg.awarenessMsg sender st) [sender]],
                    stor, false⟩
          | BinFrame.custom parsed =>
              match parsed with
              | none => ⟨s, [], stor, false⟩
              | some msg => ⟨s, handleCustomMessage nowIso sender msg, stor, false⟩
          | BinFrame.unknownTag _ => ⟨s, [], stor, false⟩

/-- Synchronous part of `onClose(connection)`: delete the user entry,
and when a custom-awareness entry exists delete it and broadcast the
null-state presence message.  The roster broadcast is NOT here: the
source defers it with `setTimeout(..., 0)`. -/
def onCloseImmediate (s : ServerState) (connId : ConnId) :
    ServerState × List Effect :=
  let s1 := { s with connectedUsers := aerase s.connectedUsers connId }
  if (aget s.customAwareness connId).isSome then
    ({ s1 with customAwareness := aerase s.customAwareness connId },
      [Effect.broadcast (OutMsg.awarenessMsg connId JVal.null) []])
  else
    (s1, [])

/-- Deferred part of `onClose`: after the host has settled the close
(removed the id from its enumeration), recompute and broadcast the
roster snapshot from the settled enumeration. -/
def onCloseDeferred (liveAfterSettle : List ConnId) (s : ServerState) :
    Effect :=
  broadcastConnectionCount liveAfterSettle s "disconnect"

/-- Actor state of a fresh instantiation, after `onStart` reloaded the
persisted snapshot: in-memory maps empty, document rebuilt from storage
(the identity claims do not depend on its contents, an empty blob is
used below). -/
def freshServer : ServerState :=
  { doc := some { updates := [] }, customAwareness := [], connectedUsers := []
  , lastMessageAt := 0, lastActivityAt := 0 }

/-- Host plus actor, for multi-event runs. -/
structure World where
  live : List ConnId
  server : ServerState
deriving DecidableEq, Repr

/-- Lifecycle events driving a run: a connect, a settled close, or the
host discarding and recreating the actor while connections stay live. -/
inductive Ev where
  | connect (id : ConnId)
  | close (id : ConnId)
  | reinstantiate
deriving DecidableEq, Repr

/-- One lifecycle step: the host accepts (appends) on connect before
dispatching `onConnect`, removes the id once a close settles, and on
re-instantiation replaces the actor memory with a fresh instance while
its enumeration is untouched. -/
def stepEv (w : World) (e : Ev) : World :=
  match e with
  | Ev.connect id =>
      let live' := w.live ++ [id]
      ⟨live', (onConnect 0 live' w.server id).1⟩
  | Ev.close id =>
      ⟨w.live.erase id, (onCloseImmediate w.server id).1⟩
  | Ev.reinstantiate => ⟨w.live, freshServer⟩

/-- Run a lifecycle event list from an empty room. -/
def runEvents (evs : List Ev) : World :=
  evs.foldl stepEv ⟨[], freshServer⟩

/-! Client provider (src/client/src/YjsPartyProvider.ts). -/

/-- WebSocket readiness as the provider observes it. -/
inductive WsState where
  | connecting
  | opened
  | closing
  | closed
deriving DecidableEq, Repr

/-- The provider fields relevant to the lifecycle claims.  The source
class keeps no destroyed flag: `destroy()` only closes the socket and
destroys the local awareness object. -/
structure Provider where
  wsState : WsState
  synced : Bool
deriving DecidableEq, Repr

/-- Observable actions of the provider. -/
inductive PEffect where
  | emitStatus (status : String)
  | emitSync (b : Bool)
  | scheduleReconnect (delayMs : Nat)
  | closeSocket
deriving DecidableEq, Repr

/-- Embeds `destroy()`: it runs `this.ws?.close()` (the awareness teardown has no
bearing on the transport lifecycle). -/
def destroy (p : Provider) : Provider × List PEffect :=
  ({ p with wsState := WsState.closing }, [PEffect.closeSocket])

/-- The `ws.onclose` handler: emit the disconnected status, drop the
synced flag, and `setTimeout(() => this.connect(), 1000)` -
unconditionally, whatever led to the close. -/
def handleWsClose (p : Provider) : Provider × List PEffect :=
  ({ p with wsState := WsState.closed, synced := false },
    [PEffect.emitStatus "disconnected", PEffect.scheduleReconnect 1000])

/-! Facts about the JS-Map embedding, shared by the claim theorems. -/

theorem aget_aset_self {α : Type} (m : List (ConnId × α)) (k : ConnId)
    (v : α) : aget (aset m k v) k = some v := by
  induction m with
  | nil => simp [aset, aget]
  | cons p rest ih =>
      obtain ⟨pk, pv⟩ := p
      by_cases h : pk = k
      · simp [aset, aget, h]
      · simp [aset, aget, h, ih]

theorem aget_aset_ne {α : Type} (m : List (ConnId × α)) (k k' : ConnId)
    (v : α) (h : k' ≠ k) : aget (aset m k v) k' = aget m k' := by
  have hkk : ¬ k = k' := fun e => h e.symm
  induction m with
  | nil => simp [aset, aget, hkk]
  | cons p rest ih =>
      obtain ⟨pk, pv⟩ := p
      by_cases hp : pk = k
      · simp [aset, aget, hp, hkk]
      · by_cases hp' : pk = k'
        · simp [aset, aget, hp, hp', h]
        · simp [aset, aget, hp, hp', ih]

theorem aget_eq_none_of_not_mem {α : Type} (m : List (ConnId × α))
    (k : ConnId) (h : k ∉ akeys m) : aget m k = none := by
  induction m with
  | nil => rfl
  | cons p rest ih =>
      obtain ⟨pk, pv⟩ := p
      simp only [akeys, List.map_cons, List.mem_cons, not_or] at h
      have hpk : ¬ pk = k := fun e => h.1 e.symm
      simp [aget, hpk, ih (by simpa [akeys] using h.2)]

theorem aget_isSome_of_mem {α : Type} (m : List (ConnId × α))
    (k : ConnId) (h : k ∈ akeys m) : (aget m k).isSome := by
  induction m with
  | nil => simp [akeys] at h
  | cons p rest ih =>
      obtain ⟨pk, pv⟩ := p
      by_cases hp : pk = k
      · simp [aget, hp]
      · have hm : k ∈ akeys rest := by
          simp only [akeys, List.map_cons, List.mem_cons] at h
          rcases h with e | hm
          · exact absurd e.symm hp
          · exact hm
        simp [aget, hp, ih hm]

theorem aget_aerase_self {α : Type} (m : List (ConnId × α)) (k : ConnId)
    (h : (akeys m).Nodup) : aget (aerase m k) k = none := by
  induction m with
  | nil => rfl
  | cons p rest ih =>
      obtain ⟨pk, pv⟩ := p
      simp only [akeys, List.map_cons, List.nodup_cons] at h
      by_cases hp : pk = k
      · simp only [aerase, if_pos hp]
        exact aget_eq_none_of_not_mem rest k (hp ▸ h.1)
      · simp [aerase, aget, hp, ih (by simpa [akeys] using h.2)]

theorem akeys_aset {α : Type} (m : List (ConnId × α)) (k : ConnId)
    (v : α) :
    akeys (aset m k v) =
      (if (aget m k).isSome then akeys m else akeys m ++ [k]) := by
  induction m with
  | nil => simp [aset, aget, akeys]
  | cons p rest ih =>
      obtain ⟨pk, pv⟩ := p
      simp only [akeys] at ih ⊢
      by_cases hp : pk = k
      · simp [aset, aget, hp]
      · by_cases hr : (aget rest k).isSome
        · simp [aset, aget, hp, hr, ih]
        · simp [aset, aget, hp, hr, ih]

theorem nodup_akeys_aset {α : Type} (m : List (ConnId × α)) (k : ConnId)
    (v : α) (h : (akeys m).Nodup) : (akeys (aset m k v)).Nodup := by
  rw [akeys_aset]
  by_cases hk : (aget m k).isSome
  · simpa [hk] using h
  · have hnm : k ∉ akeys m := fun hmem => hk (aget_isSome_of_mem m k hmem)
    simp only [if_neg hk]
    simp [List.nodup_append, h, hnm]

theorem aget_backfillAux_of_some {c : ConnId} {ps : List (Nat × ConnId)}
    {m : List (ConnId × UserData)} {v : UserData}
    (h : aget m c = some v) : aget (backfillAux ps m) c = some v := by
  induction ps generalizing m with
  | nil => simpa [backfillAux] using h
  | cons p rest ih =>
      obtain ⟨idx, pc⟩ := p
      by_cases hc : (aget m pc).isSome
      · simpa [backfillAux, hc] using ih h
      · have hne : c ≠ pc := by
          intro e
          rw [← e] at hc
          simp [h] at hc
        have hs : aget (aset m pc (mkUserData idx pc)) c = some v := by
          rw [aget_aset_ne m pc c _ hne]; exact h
        simpa [backfillAux, hc] using ih hs

theorem backfillAux_covers (ps : List (Nat × ConnId))
    (m : List (ConnId × UserData)) (c : ConnId)
    (h : c ∈ ps.map Prod.snd) :
    (aget (backfillAux ps m) c).isSome := by
  induction ps generalizing m with
  | nil => simp at h
  | cons p rest ih =>
      obtain ⟨idx, pc⟩ := p
      simp only [List.map_cons, List.mem_cons] at h
      by_cases hc : (aget m pc).isSome
      · simp only [backfillAux, if_pos hc]
        rcases h with e | hm
        · obtain ⟨w, hw⟩ := Option.isSome_iff_exists.mp hc
          rw [aget_backfillAux_of_some (e.symm ▸ hw : aget m c = some w)]
          rfl
        · exact ih _ hm
      · simp only [backfillAux, if_neg hc]
        rcases h with e | hm
        · have hs : aget (aset m pc (mkUserData idx pc)) c =
              some (mkUserData idx pc) := by
            rw [e]; exact aget_aset_self m pc (mkUserData idx pc)
          rw [aget_backfillAux_of_some hs]
          rfl
        · exact ih _ hm

theorem nodup_akeys_backfillAux (ps : List (Nat × ConnId))
    (m : List (ConnId × UserData)) (h : (akeys m).Nodup) :
    (akeys (backfillAux ps m)).Nodup := by
  induction ps generalizing m with
  | nil => simpa [backfillAux] using h
  | cons p rest ih =>
      obtain ⟨idx, pc⟩ := p
      by_cases hc : (aget m pc).isSome
      · simp only [backfillAux, if_pos hc]
        exact ih _ h
      · simp only [backfillAux, if_neg hc]
        exact ih _ (nodup_akeys_aset m pc _ h)

theorem diffSince_nil (d : YDoc) :
    diffSince d [] = encodeStateAsUpdate d := by
  simp [diffSince, encodeStateAsUpdate]

/-! Theorems. -/

/-- C10: an inbound WebSocket message delivered as a text (string)
frame is not decoded as a protocol message: the handler returns with no
reply, no broadcast, no connection close, and the document, presence
store, roster and persisted snapshot unchanged - only the diagnostic
timestamps are updated. -/
theorem text_frames_ignored (now : Nat) (nowIso : String) (s : ServerState)
    (stor : Storage) (sender : ConnId) (str : String) :
    onMessage now nowIso s stor sender (RawMessage.text str) =
      ⟨{ s with lastMessageAt := now, lastActivityAt := now }, [], stor, false⟩ := by
  cases h : s.doc <;> simp [onMessage, h]

/-- C7: a frame with an unknown leading tag, a PRESENCE frame with
malformed JSON, and an APPLICATION frame with malformed JSON are all
recovered locally: the message is dropped with no reply, no broadcast
and no connection close, and the document, presence store, roster and
persisted snapshot are unchanged (only diagnostic timestamps move). -/
theorem bad_frames_dropped (now : Nat) (nowIso : String) (s : ServerState)
    (stor : Storage) (sender : ConnId) (tag : Nat) :
    (onMessage now nowIso s stor sender
        (RawMessage.binary (BinFrame.unknownTag tag)) =
      ⟨{ s with lastMessageAt := now, lastActivityAt := now }, [], stor, false⟩) ∧
    (onMessage now nowIso s stor sender
        (RawMessage.binary (BinFrame.awareness none)) =
      ⟨{ s with lastMessageAt := now, lastActivityAt := now }, [], stor, false⟩) ∧
    (onMessage now nowIso s stor sender
        (RawMessage.binary (BinFrame.custom none)) =
      ⟨{ s with lastMessageAt := now, lastActivityAt := now }, [], stor, false⟩) := by
  refine ⟨?_, ?_, ?_⟩ <;> (cases h : s.doc <;> simp [onMessage, h])

/-- C9 counterexample: the caller destroys the provider, the transport
close then fires, and the close handler still schedules a reconnection
after 1000 ms - refuting the claim that an explicitly destroyed
provider never reconnects. -/
theorem destroyed_provider_still_reconnects :
    PEffect.scheduleReconnect 1000 ∈
      (handleWsClose (destroy { wsState := WsState.opened, synced := true }).1).2 := by
  decide

/-- C9 (amended): on every transport close the provider marks itself
unsynced, emits a disconnected status event, and schedules exactly one
reconnection attempt after the fixed 1000 ms delay - unconditionally:
the provider keeps no destroyed flag, so a prior destroy call does not
prevent the reconnect. -/
theorem close_always_schedules_reconnect (p : Provider) :
    handleWsClose p =
      ({ p with wsState := WsState.closed, synced := false },
        [PEffect.emitStatus "disconnected", PEffect.scheduleReconnect 1000]) := rfl

/-- C6 counterexample: an APPLICATION message whose type is neither
ping nor config nor mode (here type hello) is dropped - no effect at
all, in particular no broadcast to the other connections - refuting the
claim that every non-ping application type is rebroadcast. -/
theorem unhandled_custom_type_dropped :
    handleCustomMessage "2024-01-01T00:00:00Z" "A"
      { type := "hello", data := none, timestamp := none } = [] := rfl

/-- C6 (amended): APPLICATION dispatch is by the type field - ping gets
a pong reply sent to the sender only; config and mode are broadcast
unmodified to all connections except the sender; every other type is
logged and dropped without a broadcast. -/
theorem custom_dispatch (nowIso : String) (sender : ConnId)
    (msg : CustomMessage) :
    (msg.type = "ping" → handleCustomMessage nowIso sender msg =
      [Effect.sendTo sender (OutMsg.customMsg
        { type := "pong", data := none, timestamp := some nowIso })]) ∧
    (msg.type = "config" → handleCustomMessage nowIso sender msg =
      [Effect.broadcast (OutMsg.customMsg msg) [sender]]) ∧
    (msg.type = "mode" → handleCustomMessage nowIso sender msg =
      [Effect.broadcast (OutMsg.customMsg msg) [sender]]) ∧
    (msg.type ≠ "ping" → msg.type ≠ "config" → msg.type ≠ "mode" →
      handleCustomMessage nowIso sender msg = []) := by
  refine ⟨?_, ?_, ?_, ?_⟩
  · intro h; simp [handleCustomMessage, h]
  · intro h; simp [handleCustomMessage, h]
  · intro h; simp [handleCustomMessage, h]
  · intro h1 h2 h3; simp [handleCustomMessage, h1, h2, h3]

/-- C5 counterexample: closing a connection that never published
presence broadcasts nothing at all - in particular no PRESENCE message
with payload null - refuting the claim that every close event broadcasts
the null-presence message for the closing id. -/
theorem close_without_presence_no_null_broadcast :
    (onCloseImmediate
      { doc := some { updates := [] }, customAwareness := []
      , connectedUsers := [("A", mkUserData 0 "A")]
      , lastMessageAt := 0, lastActivityAt := 0 } "A").2 = [] := rfl

/-- C5 (amended): on close the connection entries are removed from the
roster user map and the presence store; a PRESENCE message with payload
null for that id is broadcast exactly when the closing connection had a
presence entry; the roster snapshot recomputation-and-broadcast is not
part of the synchronous close handler but is the deferred settle step,
which recomputes the count from the host enumeration as settled after
the close. -/
theorem close_removes_and_defers (s : ServerState) (cid : ConnId)
    (liveAfter : List ConnId) (st : JVal)
    (hU : (akeys s.connectedUsers).Nodup)
    (hA : (akeys s.customAwareness).Nodup)
    (hst : aget s.customAwareness cid = some st) :
    (aget (onCloseImmediate s cid).1.connectedUsers cid = none) ∧
    (aget (onCloseImmediate s cid).1.customAwareness cid = none) ∧
    ((onCloseImmediate s cid).2 =
      [Effect.broadcast (OutMsg.awarenessMsg cid JVal.null) []]) ∧
    (∀ e ∈ (onCloseImmediate s cid).2, ∀ cd : ConnCountData,
      e ≠ Effect.broadcast (OutMsg.connectionCount cd) []) ∧
    (onCloseDeferred liveAfter (onCloseImmediate s cid).1 =
      Effect.broadcast (OutMsg.connectionCount
        (connCountData liveAfter (onCloseImmediate s cid).1 "disconnect")) []) ∧
    ((connCountData liveAfter (onCloseImmediate s cid).1
        "disconnect").connectionCount = liveAfter.length) := by
  have hsome : (aget s.customAwareness cid).isSome := by simp [hst]
  refine ⟨?_, ?_, ?_, ?_, rfl, rfl⟩
  · simp only [onCloseImmediate, if_pos hsome]
    exact aget_aerase_self s.connectedUsers cid hU
  · simp only [onCloseImmediate, if_pos hsome]
    exact aget_aerase_self s.customAwareness cid hA
  · simp [onCloseImmediate, hsome]
  · simp [onCloseImmediate, hsome]

/-- Witness for close_removes_and_defers at a concrete state holding
one presence entry and one roster entry for the closing connection. -/
theorem close_removes_and_defers_witness :
    (aget (onCloseImmediate
      { doc := some { updates := [] }
      , customAwareness := [("A", JVal.jstr "cursor")]
      , connectedUsers := [("A", mkUserData 0 "A")]
      , lastMessageAt := 0, lastActivityAt := 0 } "A").1.connectedUsers "A"
        = none) ∧
    (aget (onCloseImmediate
      { doc := some { updates := [] }
      , customAwareness := [("A", JVal.jstr "cursor")]
      , connectedUsers := [("A", mkUserData 0 "A")]
      , lastMessageAt := 0, lastActivityAt := 0 } "A").1.customAwareness "A"
        = none) ∧
    ((onCloseImmediate
      { doc := some { updates := [] }
      , customAwareness := [("A", JVal.jstr "cursor")]
      , connectedUsers := [("A", mkUserData 0 "A")]
      , lastMessageAt := 0, lastActivityAt := 0 } "A").2 =
      [Effect.broadcast (OutMsg.awarenessMsg "A" JVal.null) []]) := by
  have h := close_removes_and_defers
    { doc := some { updates := [] }
    , customAwareness := [("A", JVal.jstr "cursor")]
    , connectedUsers := [("A", mkUserData 0 "A")]
    , lastMessageAt := 0, lastActivityAt := 0 } "A" [] (JVal.jstr "cursor")
    (by decide) (by decide) rfl
  exact ⟨h.1, h.2.1, h.2.2.1⟩

/-- C8 counterexample: two concrete refutations of the persistence
claim.  With storage unavailable, an update frame still rebroadcasts
but the awaited persistence write throws and the rejection propagates
out of the uncaught message handler - so a storage error does fail the
message-handling operation and is not merely logged.  And with working
storage, an incremental update arriving inside a sync-step-2 frame is
applied successfully to the document yet no persistence write happens
at all - so not every successful update application triggers one. -/
theorem persistence_claim_counterexample :
    ((onMessage 0 "t0" freshServer { blob := none, ok := false } "A"
        (RawMessage.binary (BinFrame.sync (SyncMsg.update 7)))).errored
      = true) ∧
    ((onMessage 0 "t0" freshServer { blob := none, ok := false } "A"
        (RawMessage.binary (BinFrame.sync (SyncMsg.update 7)))).effects =
      [Effect.broadcast (OutMsg.rawFrame
        (BinFrame.sync (SyncMsg.update 7))) ["A"]]) ∧
    ((onMessage 0 "t0" freshServer { blob := none, ok := true } "A"
        (RawMessage.binary (BinFrame.sync (SyncMsg.step2 [9])))).state.doc =
      some { updates := [9] }) ∧
    ((onMessage 0 "t0" freshServer { blob := none, ok := true } "A"
        (RawMessage.binary (BinFrame.sync (SyncMsg.step2 [9])))).storage.blob =
      none) := ⟨rfl, rfl, rfl, rfl⟩

/-- C8 (amended): a persistence write of the full serialized document
is triggered only when a remote incremental update arrives as a
y-protocols update frame, and it is issued after the rebroadcast; an
update arriving inside a sync-step-2 frame is applied to the document
with no persistence attempted and no rebroadcast.  When the triggered
write succeeds the blob holds the full state and the handler completes;
when storage fails the already issued rebroadcast is unaffected but the
failure propagates out of the message handler uncaught (the relay
neither catches nor logs it). -/
theorem persistence_best_effort (now : Nat) (nowIso : String)
    (s : ServerState) (stor : Storage) (sender : ConnId) (d : YDoc)
    (u : Upd) (diff : List Upd) (hdoc : s.doc = some d) :
    ((onMessage now nowIso s stor sender
        (RawMessage.binary (BinFrame.sync (SyncMsg.update u)))).effects =
      [Effect.broadcast (OutMsg.rawFrame
        (BinFrame.sync (SyncMsg.update u))) [sender]]) ∧
    (stor.ok = true →
      (onMessage now nowIso s stor sender
          (RawMessage.binary (BinFrame.sync (SyncMsg.update u)))).storage.blob =
        some (encodeStateAsUpdate (applyYUpdate d u)) ∧
      (onMessage now nowIso s stor sender
          (RawMessage.binary (BinFrame.sync (SyncMsg.update u)))).errored
        = false) ∧
    (stor.ok = false →
      (onMessage now nowIso s stor sender
          (RawMessage.binary (BinFrame.sync (SyncMsg.update u)))).storage = stor ∧
      (onMessage now nowIso s stor sender
          (RawMessage.binary (BinFrame.sync (SyncMsg.update u)))).errored
        = true) ∧
    ((onMessage now nowIso s stor sender
        (RawMessage.binary (BinFrame.sync (SyncMsg.step2 diff)))).state.doc =
      some (applyDiff d diff)) ∧
    ((onMessage now nowIso s stor sender
        (RawMessage.binary (BinFrame.sync (SyncMsg.step2 diff)))).storage =
      stor) ∧
    ((onMessage now nowIso s stor sender
        (RawMessage.binary (BinFrame.sync (SyncMsg.step2 diff)))).effects =
      []) ∧
    ((onMessage now nowIso s stor sender
        (RawMessage.binary (BinFrame.sync (SyncMsg.step2 diff)))).errored =
      false) := by
  refine ⟨?_, ?_, ?_, ?_, ?_, ?_, ?_⟩
  · simp [onMessage, hdoc, persistDocument]
  · intro hok; simp [onMessage, hdoc, persistDocument, hok]
  · intro hko; simp [onMessage, hdoc, persistDocument, hko]
  · simp [onMessage, hdoc]
  · simp [onMessage, hdoc]
  · simp [onMessage, hdoc]
  · simp [onMessage, hdoc]

/-- Witness for persistence_best_effort on a fresh room with working
storage: update 7 in an update frame is rebroadcast around the sender
and persisted, while update 9 in a step-2 frame is applied with the
storage blob left untouched. -/
theorem persistence_best_effort_witness :
    ((onMessage 0 "t0" freshServer { blob := none, ok := true } "A"
        (RawMessage.binary (BinFrame.sync (SyncMsg.update 7)))).effects =
      [Effect.broadcast (OutMsg.rawFrame
        (BinFrame.sync (SyncMsg.update 7))) ["A"]]) ∧
    ((onMessage 0 "t0" freshServer { blob := none, ok := true } "A"
        (RawMessage.binary (BinFrame.sync (SyncMsg.update 7)))).storage.blob =
      some [7]) ∧
    ((onMessage 0 "t0" freshServer { blob := none, ok := true } "A"
        (RawMessage.binary (BinFrame.sync (SyncMsg.step2 [9])))).storage =
      { blob := none, ok := true }) := by
  have h := persistence_best_effort 0 "t0" freshServer
    { blob := none, ok := true } "A" { updates := [] } 7 [9] rfl
  refine ⟨h.1, ?_, h.2.2.2.2.1⟩
  rw [(h.2.1 rfl).1]
  rfl

/-- C4 counterexample: a SYNC frame whose payload is sync step 2
carrying incremental update 7 is fed to the Document Replica - the
update is applied - yet no reply is sent, nothing is rebroadcast and
persistence is not triggered, refuting the claim that every SYNC-fed
incremental update has its raw bytes rebroadcast to the other
connections with persistence triggered. -/
theorem step2_update_not_rebroadcast :
    ((onMessage 0 "t0" freshServer { blob := none, ok := true } "A"
        (RawMessage.binary (BinFrame.sync (SyncMsg.step2 [7])))).state.doc =
      some { updates := [7] }) ∧
    ((onMessage 0 "t0" freshServer { blob := none, ok := true } "A"
        (RawMessage.binary (BinFrame.sync (SyncMsg.step2 [7])))).effects =
      []) ∧
    ((onMessage 0 "t0" freshServer { blob := none, ok := true } "A"
        (RawMessage.binary (BinFrame.sync (SyncMsg.step2 [7])))).storage =
      { blob := none, ok := true }) := ⟨rfl, rfl, rfl⟩

/-- C4 (amended): every inbound SYNC payload is fed to the Document
Replica, but rebroadcast and persistence happen only for frames tagged
as y-protocols update messages: such a frame has its raw inbound bytes
rebroadcast to every connection except the sender and triggers
persistence of the full state; a state-vector request (sync step 1)
gets the computed diff sent to the sender only, with no broadcast, no
document change and no persistence; an incremental update arriving as a
sync-step-2 frame is applied to the document but is neither rebroadcast
nor persisted and gets no reply. -/
theorem sync_dispatch (now : Nat) (nowIso : String) (s : ServerState)
    (stor : Storage) (sender : ConnId) (d : YDoc) (u : Upd)
    (sv diff : List Upd) (hdoc : s.doc = some d) :
    ((onMessage now nowIso s stor sender
        (RawMessage.binary (BinFrame.sync (SyncMsg.update u)))).effects =
      [Effect.broadcast (OutMsg.rawFrame
        (BinFrame.sync (SyncMsg.update u))) [sender]]) ∧
    ((onMessage now nowIso s stor sender
        (RawMessage.binary (BinFrame.sync (SyncMsg.update u)))).state.doc =
      some (applyYUpdate d u)) ∧
    (stor.ok = true →
      (onMessage now nowIso s stor sender
          (RawMessage.binary (BinFrame.sync (SyncMsg.update u)))).storage.blob =
        some (encodeStateAsUpdate (applyYUpdate d u))) ∧
    ((onMessage now nowIso s stor sender
        (RawMessage.binary (BinFrame.sync (SyncMsg.step1 sv)))).effects =
      [Effect.sendTo sender (OutMsg.sync (SyncMsg.step2 (diffSince d sv)))]) ∧
    ((onMessage now nowIso s stor sender
        (RawMessage.binary (BinFrame.sync (SyncMsg.step1 sv)))).storage = stor) ∧
    ((onMessage now nowIso s stor sender
        (RawMessage.binary (BinFrame.sync (SyncMsg.step1 sv)))).state.doc =
      some d) ∧
    ((onMessage now nowIso s stor sender
        (RawMessage.binary (BinFrame.sync (SyncMsg.step2 diff)))).state.doc =
      some (applyDiff d diff)) ∧
    ((onMessage now nowIso s stor sender
        (RawMessage.binary (BinFrame.sync (SyncMsg.step2 diff)))).effects =
      []) ∧
    ((onMessage now nowIso s stor sender
        (RawMessage.binary (BinFrame.sync (SyncMsg.step2 diff)))).storage =
      stor) := by
  refine ⟨?_, ?_, ?_, ?_, ?_, ?_, ?_, ?_, ?_⟩
  · simp [onMessage, hdoc, persistDocument]
  · simp [onMessage, hdoc, persistDocument]
  · intro hok; simp [onMessage, hdoc, persistDocument, hok]
  · simp [onMessage, hdoc]
  · simp [onMessage, hdoc]
  · simp [onMessage, hdoc]
  · simp [onMessage, hdoc]
  · simp [onMessage, hdoc]
  · simp [onMessage, hdoc]

/-- Witness for sync_dispatch on a fresh room: update 7 in an update
frame is applied, rebroadcast and persisted; a step-1 request with
empty state vector gets the empty diff back, sender-only; update 9 in
a step-2 frame is applied with no effects and storage untouched. -/
theorem sync_dispatch_witness :
    ((onMessage 0 "t0" freshServer { blob := none, ok := true } "A"
        (RawMessage.binary (BinFrame.sync (SyncMsg.update 7)))).state.doc =
      some { updates := [7] }) ∧
    ((onMessage 0 "t0" freshServer { blob := none, ok := true } "A"
        (RawMessage.binary (BinFrame.sync (SyncMsg.step1 [])))).effects =
      [Effect.sendTo "A" (OutMsg.sync (SyncMsg.step2 []))]) ∧
    ((onMessage 0 "t0" freshServer { blob := none, ok := true } "A"
        (RawMessage.binary (BinFrame.sync (SyncMsg.step2 [9])))).state.doc =
      some { updates := [9] }) ∧
    ((onMessage 0 "t0" freshServer { blob := none, ok := true } "A"
        (RawMessage.binary (BinFrame.sync (SyncMsg.step2 [9])))).effects =
      []) := by
  have h := sync_dispatch 0 "t0" freshServer { blob := none, ok := true }
    "A" { updates := [] } 7 [] [9] rfl
  refine ⟨?_, ?_, ?_, h.2.2.2.2.2.2.2.1⟩
  · rw [h.2.1]; rfl
  · rw [h.2.2.2.1]; rfl
  · rw [h.2.2.2.2.2.2.1]; rfl

/-- C3 counterexample: in a room whose document already absorbed update
5, the message sent to the newly connected client is a sync-step-1
frame carrying the state vector, and no effect of the connect handler
is the full-state reply (the step-2 diff against the empty state
vector) - refuting the claim that connect sends the diff-from-empty. -/
theorem connect_sends_step1_not_full_state :
    ((onConnect 0 ["A"]
      { doc := some { updates := [5] }, customAwareness := []
      , connectedUsers := [], lastMessageAt := 0, lastActivityAt := 0 }
      "A").2.head? =
      some (Effect.sendTo "A" (OutMsg.sync (SyncMsg.step1 [5])))) ∧
    (Effect.sendTo "A" (OutMsg.sync (SyncMsg.step2 [5])) ∉
      (onConnect 0 ["A"]
        { doc := some { updates := [5] }, customAwareness := []
        , connectedUsers := [], lastMessageAt := 0, lastActivityAt := 0 }
        "A").2) := by
  refine ⟨rfl, ?_⟩
  decide

/-- C3 (amended): on connect the actor sends the new client a SYNC
message containing sync step 1 (the document state vector), followed by
one PRESENCE message per presence entry and the roster broadcast; the
full-state reply - the diff against an empty state vector, equal to the
full serialized document - is produced by the message handler as the
sender-only reply when the client sends its own sync step 1 with an
empty state vector. -/
theorem connect_sync_behavior (now : Nat) (nowIso : String)
    (live : List ConnId) (s : ServerState) (stor : Storage)
    (cid : ConnId) (d : YDoc) (hdoc : s.doc = some d) :
    ((onConnect now live s cid).2 =
      Effect.sendTo cid (OutMsg.sync (SyncMsg.step1 (stateVector d)))
        :: s.customAwareness.map (fun p =>
             Effect.sendTo cid (OutMsg.awarenessMsg p.1 p.2))
        ++ [broadcastConnectionCount live (onConnect now live s cid).1
              "connect"]) ∧
    ((onMessage now nowIso s stor cid
        (RawMessage.binary (BinFrame.sync (SyncMsg.step1 [])))).effects =
      [Effect.sendTo cid
        (OutMsg.sync (SyncMsg.step2 (encodeStateAsUpdate d)))]) := by
  refine ⟨?_, ?_⟩
  · simp [onConnect, hdoc]
  · simp [onMessage, hdoc, diffSince_nil]

/-- Witness for connect_sync_behavior in a room whose document holds
update 5 and whose presence store holds one entry. -/
theorem connect_sync_behavior_witness :
    ((onConnect 0 ["B", "A"]
      { doc := some { updates := [5] }
      , customAwareness := [("B", JVal.jstr "cursor")]
      , connectedUsers := [("B", mkUserData 0 "B")]
      , lastMessageAt := 0, lastActivityAt := 0 } "A").2.head? =
      some (Effect.sendTo "A" (OutMsg.sync (SyncMsg.step1 [5])))) ∧
    ((onMessage 0 "t0"
      { doc := some { updates := [5] }
      , customAwareness := [("B", JVal.jstr "cursor")]
      , connectedUsers := [("B", mkUserData 0 "B")]
      , lastMessageAt := 0, lastActivityAt := 0 }
      { blob := none, ok := true } "A"
        (RawMessage.binary (BinFrame.sync (SyncMsg.step1 [])))).effects =
      [Effect.sendTo "A" (OutMsg.sync (SyncMsg.step2 [5]))]) := by
  have h := connect_sync_behavior 0 "t0" ["B", "A"]
    { doc := some { updates := [5] }
    , customAwareness := [("B", JVal.jstr "cursor")]
    , connectedUsers := [("B", mkUserData 0 "B")]
    , lastMessageAt := 0, lastActivityAt := 0 }
    { blob := none, ok := true } "A" { updates := [5] } rfl
  refine ⟨?_, ?_⟩
  · rw [h.1]; rfl
  · rw [h.2]; rfl

/-- Witness for custom_dispatch at concrete inputs. -/
theorem custom_dispatch_witness :
    (handleCustomMessage "t0" "A" { type := "ping", data := none, timestamp := none } =
      [Effect.sendTo "A" (OutMsg.customMsg
        { type := "pong", data := none, timestamp := some "t0" })]) ∧
    (handleCustomMessage "t0" "A"
        { type := "config", data := some (JVal.jnum 3), timestamp := none } =
      [Effect.broadcast (OutMsg.customMsg
        { type := "config", data := some (JVal.jnum 3), timestamp := none }) ["A"]]) ∧
    (handleCustomMessage "t0" "A" { type := "mode", data := none, timestamp := none } =
      [Effect.broadcast (OutMsg.customMsg
        { type := "mode", data := none, timestamp := none }) ["A"]]) :=
  ⟨(custom_dispatch "t0" "A" _).1 rfl,
   (custom_dispatch "t0" "A" _).2.1 rfl,
   (custom_dispatch "t0" "A" _).2.2.1 rfl⟩

/-- C1: on every connect and every disconnect event the broadcast
roster snapshot is recomputed from the host live-connection enumeration
passed to the handler at that moment, never from a cached count: the
count equals the length of that enumeration, the mode is solo when the
count is at most 1 and multi otherwise, and the users array lists the
identity of every registered connection; the connect handler ends with
exactly this broadcast and the deferred close step issues exactly this
broadcast over the settled enumeration. -/
theorem roster_snapshot_fresh (live : List ConnId) (s : ServerState)
    (ev : String) (now : Nat) (cid : ConnId) (d : YDoc)
    (live2 : List ConnId) (s2 : ServerState) (hdoc : s.doc = some d) :
    (broadcastConnectionCount live s ev =
      Effect.broadcast (OutMsg.connectionCount (connCountData live s ev)) []) ∧
    ((connCountData live s ev).connectionCount = live.length) ∧
    ((connCountData live s ev).mode =
      if live.length ≤ 1 then "solo" else "multi") ∧
    ((connCountData live s ev).users = s.connectedUsers.map (fun p =>
      { id := p.1, name := p.2.name, color := p.2.color
      , profile_picture_url := p.2.profile_picture_url })) ∧
    ((onConnect now live s cid).2.getLast? =
      some (broadcastConnectionCount live (onConnect now live s cid).1
        "connect")) ∧
    (onCloseDeferred live2 s2 = broadcastConnectionCount live2 s2
      "disconnect") := by
  refine ⟨rfl, rfl, rfl, rfl, ?_, rfl⟩
  have heff : (onConnect now live s cid).2 =
      Effect.sendTo cid (OutMsg.sync (SyncMsg.step1 (stateVector d)))
        :: s.customAwareness.map (fun p =>
             Effect.sendTo cid (OutMsg.awarenessMsg p.1 p.2))
        ++ [broadcastConnectionCount live (onConnect now live s cid).1
              "connect"] := by
    simp [onConnect, hdoc]
  rw [heff,
    show Effect.sendTo cid (OutMsg.sync (SyncMsg.step1 (stateVector d)))
        :: s.customAwareness.map (fun p =>
             Effect.sendTo cid (OutMsg.awarenessMsg p.1 p.2))
        ++ [broadcastConnectionCount live (onConnect now live s cid).1
              "connect"] =
      (Effect.sendTo cid (OutMsg.sync (SyncMsg.step1 (stateVector d)))
        :: s.customAwareness.map (fun p =>
             Effect.sendTo cid (OutMsg.awarenessMsg p.1 p.2)))
        ++ [broadcastConnectionCount live (onConnect now live s cid).1
              "connect"] from by simp,
    List.getLast?_concat]

/-- Witness for roster_snapshot_fresh: one connection gives solo count
1, two give multi count 2, and the connect handler ends with the roster
broadcast. -/
theorem roster_snapshot_fresh_witness :
    ((connCountData ["A"] freshServer "connect").connectionCount = 1) ∧
    ((connCountData ["A"] freshServer "connect").mode = "solo") ∧
    ((connCountData ["A", "B"] freshServer "connect").mode = "multi") ∧
    ((onConnect 0 ["A"] freshServer "A").2.getLast? =
      some (broadcastConnectionCount ["A"]
        (onConnect 0 ["A"] freshServer "A").1 "connect")) := by
  have h1 := roster_snapshot_fresh ["A"] freshServer "connect" 0 "A"
    { updates := [] } [] freshServer rfl
  have h2 := roster_snapshot_fresh ["A", "B"] freshServer "connect" 0 "A"
    { updates := [] } [] freshServer rfl
  refine ⟨?_, ?_, ?_, h1.2.2.2.2.1⟩
  · rw [h1.2.1]; rfl
  · rw [h1.2.2.1]; rfl
  · rw [h2.2.2.1]; rfl

/-- C2 counterexample: connection B is assigned the identity Bob while
A and B are connected; A closes, the actor is re-instantiated while B
stays live at the host, and the next connect backfills B from its new
position in the enumeration, assigning Alice with a different color -
refuting the claim that the assigned triple never changes for the
lifetime of a connection even across re-instantiation. -/
theorem identity_not_stable_across_reinstantiation :
    (aget (runEvents [Ev.connect "A", Ev.connect "B"]).server.connectedUsers
        "B" =
      some { name := "Bob", color := "#4ECDC4"
           , profile_picture_url := "https://i.pravatar.cc/150?u=B" }) ∧
    (aget (runEvents [Ev.connect "A", Ev.connect "B", Ev.close "A",
        Ev.reinstantiate, Ev.connect "C"]).server.connectedUsers "B" =
      some { name := "Alice", color := "#FF6B6B"
           , profile_picture_url := "https://i.pravatar.cc/150?u=B" }) ∧
    ("B" ∈ (runEvents [Ev.connect "A", Ev.connect "B", Ev.close "A",
        Ev.reinstantiate, Ev.connect "C"]).live) ∧
    (({ name := "Bob", color := "#4ECDC4"
      , profile_picture_url := "https://i.pravatar.cc/150?u=B" } : UserData) ≠
      { name := "Alice", color := "#FF6B6B"
      , profile_picture_url := "https://i.pravatar.cc/150?u=B" }) := by
  refine ⟨rfl, rfl, ?_, ?_⟩ <;> decide

/-- C2 (amended): on a connect event where the host enumeration is
longer than the known-identity map, every live connection missing an
identity is backfilled, deterministically and without erroring; no
identity is double-counted (the key list stays duplicate-free); an
identity already present for another connection is not changed by the
event, so the triple is stable within a single actor instantiation; and
the avatar URL, derived from the connection id alone, is stable even
across re-instantiation - but the backfilled name and color derive from
the current position in the enumeration, so stability of the full
triple across re-instantiation does not hold (see the
counterexample). -/
theorem identity_backfill (now : Nat) (live : List ConnId)
    (s : ServerState) (cid : ConnId) (d : YDoc) (c k : ConnId)
    (v : UserData) (i j : Nat)
    (hdoc : s.doc = some d)
    (hlen : s.connectedUsers.length < live.length)
    (hnd : (akeys s.connectedUsers).Nodup)
    (hc : c ∈ live)
    (hk : k ≠ cid) (hkv : aget s.connectedUsers k = some v) :
    ((aget (onConnect now live s cid).1.connectedUsers c).isSome) ∧
    ((aget (onConnect now live s cid).1.connectedUsers cid).isSome) ∧
    (aget (onConnect now live s cid).1.connectedUsers k = some v) ∧
    ((akeys (onConnect now live s cid).1.connectedUsers).Nodup) ∧
    ((mkUserData i c).profile_picture_url =
      (mkUserData j c).profile_picture_url) := by
  have hmap : (onConnect now live s cid).1.connectedUsers =
      aset (backfillUsers live s.connectedUsers) cid
        (mkUserData (live.length - 1) cid) := by
    simp [onConnect, hdoc, hlen]
  refine ⟨?_, ?_, ?_, ?_, rfl⟩
  · rw [hmap]
    by_cases hcc : c = cid
    · rw [hcc, aget_aset_self]; rfl
    · rw [aget_aset_ne _ _ _ _ hcc]
      exact backfillAux_covers live.enum s.connectedUsers c
        (by rw [List.enum_map_snd]; exact hc)
  · rw [hmap, aget_aset_self]; rfl
  · rw [hmap, aget_aset_ne _ _ _ _ hk]
    exact aget_backfillAux_of_some hkv
  · rw [hmap]
    exact nodup_akeys_aset _ _ _
      (nodup_akeys_backfillAux live.enum s.connectedUsers hnd)

/-- Witness for identity_backfill: actor recreated while B is live and
known only to the host; on the connect of A the map is rebuilt - B and
the fresh connection A are both covered, the pre-existing entry for B
in a state that still had it is preserved, and keys stay unique. -/
theorem identity_backfill_witness :
    ((aget (onConnect 0 ["B", "C", "A"]
      { doc := some { updates := [] }
      , customAwareness := []
      , connectedUsers := [("B", mkUserData 1 "B")]
      , lastMessageAt := 0, lastActivityAt := 0 }
      "A").1.connectedUsers "C").isSome) ∧
    ((aget (onConnect 0 ["B", "C", "A"]
      { doc := some { updates := [] }
      , customAwareness := []
      , connectedUsers := [("B", mkUserData 1 "B")]
      , lastMessageAt := 0, lastActivityAt := 0 }
      "A").1.connectedUsers "A").isSome) ∧
    (aget (onConnect 0 ["B", "C", "A"]
      { doc := some { updates := [] }
      , customAwareness := []
      , connectedUsers := [("B", mkUserData 1 "B")]
      , lastMessageAt := 0, lastActivityAt := 0 }
      "A").1.connectedUsers "B" = some (mkUserData 1 "B")) ∧
    ((akeys (onConnect 0 ["B", "C", "A"]
      { doc := some { updates := [] }
      , customAwareness := []
      , connectedUsers := [("B", mkUserData 1 "B")]
      , lastMessageAt := 0, lastActivityAt := 0 }
      "A").1.connectedUsers).Nodup) := by
  have h := identity_backfill 0 ["B", "C", "A"]
    { doc := some { updates := [] }
    , customAwareness := []
    , connectedUsers := [("B", mkUserData 1 "B")]
    , lastMessageAt := 0, lastActivityAt := 0 }
    "A" { updates := [] } "C" "B" (mkUserData 1 "B") 0 1 rfl
    (by decide) (by decide) (by decide) (by decide) rfl
  exact ⟨h.1, h.2.1, h.2.2.1, h.2.2.2.1⟩

end HibernationBug
